import Mathlib

/-!
Shallow embedding of `decarbonization_analyzer.py` (decarbonization-analyzer
repository) and verification of its specification claims.

The embedding follows the source file function by function:
- `result_matches_org` and `url_belongs_to_org` embed the Text Matcher
  (source lines 28-47), including a model of CPython `urllib.parse`
  hostname extraction (`pyHostname`), since the source calls
  `urlparse(url).hostname`.
- `search_organization` embeds the Search Client (source lines 59-98) with
  the HTTP transport abstracted as two per-request outcomes (first request,
  retry request) plus an explicit trace of request count and sleeps.
- `analyze_search_results` embeds the Goal Extractor (source lines 100-220)
  with the inference step abstracted as the parsed response it yields
  (the source absorbs every inference failure into an empty dict `{}`,
  modelled as the all-`none` `ParsedResponse`).
- `summary_percentage` embeds the Pipeline Driver summary computation
  (source lines 262-270).

String primitives (`lower`, `split`, `strip`, substring `in`, slicing, the
regex `\b(20\d{2})\b`) are modelled for ASCII text, matching CPython on all
ASCII inputs; every concrete input used below is ASCII.
-/

/-! ## Python string primitives -/

/-- Whitespace per Python `str.split()` / `str.strip()` (ASCII fragment). -/
def pyIsSpace (c : Char) : Bool :=
  c = ' ' || c = '\t' || c = '\n' || c = '\x0d' || c = '\x0b' || c = '\x0c'

/-- Python `str.lower()` (ASCII fragment). -/
def pyLower (s : String) : String :=
  String.mk (s.data.map Char.toLower)

/-- Accumulator-style worker for `pySplitWs`; `acc` holds the current token
reversed. -/
def splitWsGo : List Char → List Char → List String
  | acc, [] => if acc = [] then [] else [String.mk acc.reverse]
  | acc, c :: cs =>
    if pyIsSpace c then
      (if acc = [] then [] else [String.mk acc.reverse]) ++ splitWsGo [] cs
    else splitWsGo (c :: acc) cs

/-- Python `str.split()` with no argument: split on whitespace runs,
discarding empty pieces. -/
def pySplitWs (s : String) : List String :=
  splitWsGo [] s.data

/-- Does `hay` start with `needle`? -/
def startsMatch : List Char → List Char → Bool
  | [], _ => true
  | _ :: _, [] => false
  | n :: ns, h :: hs => n = h && startsMatch ns hs

/-- Worker for Python substring containment: does `needle` occur in `hay`? -/
def listHasSub (needle : List Char) : List Char → Bool
  | [] => needle.isEmpty
  | h :: hs => startsMatch needle (h :: hs) || listHasSub needle hs

/-- Python `needle in hay` on strings. -/
def strContains (hay needle : String) : Bool :=
  listHasSub needle.data hay.data

/-- Python `str.strip()` with no argument (ASCII whitespace fragment). -/
def pyStrip (s : String) : String :=
  String.mk (((s.data.dropWhile pyIsSpace).reverse.dropWhile pyIsSpace).reverse)

/-- Python slicing `s[:n]`: the first `n` characters. -/
def pyTake (n : Nat) (s : String) : String :=
  String.mk (s.data.take n)

/-- Word characters for the regex `\b` boundary (`re` ASCII fragment). -/
def isWordChar (c : Char) : Bool :=
  c.isAlphanum || c = '_'

/-- Scan for the leftmost match of the Python regex `\b(20\d{2})\b` as used
by the target-date fallback (source line 200); `prev` is the character just
before the current position, used to decide the left word boundary. -/
def yearScan : Option Char → List Char → Option String
  | _, [] => none
  | prev, c1 :: rest1 =>
    match rest1 with
    | c2 :: c3 :: c4 :: rest =>
      if (match prev with | none => true | some p => !isWordChar p)
          && c1 = '2' && c2 = '0' && c3.isDigit && c4.isDigit
          && (match rest with | [] => true | r :: _ => !isWordChar r)
      then some (String.mk [c1, c2, c3, c4])
      else yearScan (some c1) rest1
    | _ => none

/-- Python `re.search(r'\b(20\d{2})\b', s)`, returning the matched group. -/
def findYear (s : String) : Option String :=
  yearScan none s.data

/-! ## CPython `urllib.parse` hostname model

The source calls `urlparse(url).hostname or ""` (line 42-43). This models
the hostname path of CPython 3.11 `urlsplit` / `SplitResult.hostname`:
leading control/space characters are stripped and tab/CR/LF removed, an
optional scheme is split off, the network location is the span after `//`
up to the first of `/?#`, a netloc holding `[` without `]` (or vice versa)
raises `ValueError("Invalid IPv6 URL")`, and the hostname is the part of
the netloc after the last `@`, inside the first `[...]` if brackets are
present and otherwise up to the first `:`, lowercased. (Later CPython patch
releases additionally validate a bracketed host as an IP literal; no claim
below depends on bracketed hosts other than the unbalanced case, which
raises in every CPython version.) -/

/-- Python exceptions that the embedded code can raise. -/
inductive PyErr
  | valueError
  | zeroDivisionError
deriving DecidableEq

/-- CPython `urlsplit` input sanitization: lstrip of C0-control/space then
removal of every tab, CR and LF. -/
def sanitizeUrl (l : List Char) : List Char :=
  (l.dropWhile (fun c => c.toNat ≤ 32)).filter
    (fun c => c ≠ '\t' && c ≠ '\x0d' && c ≠ '\n')

/-- Characters allowed in a URL scheme after the first (CPython
`scheme_chars`). -/
def schemeChars (c : Char) : Bool :=
  c.isAlpha || c.isDigit || c = '+' || c = '-' || c = '.'

/-- Drop a leading `scheme:` when the text before the first colon is a valid
scheme (first character alphabetic, rest in `schemeChars`); otherwise the
input is returned unchanged, exactly as CPython `urlsplit` does. -/
def stripScheme (l : List Char) : List Char :=
  match l with
  | [] => []
  | c0 :: rest =>
    match (c0 :: rest).findIdx? (fun c => c = ':') with
    | none => l
    | some 0 => l
    | some (i + 1) =>
      if c0.isAlpha && (rest.take i).all schemeChars then rest.drop (i + 1)
      else l

/-- The network location of a URL: the span after a leading `//` up to the
first of `/`, `?`, `#`; empty when the (scheme-stripped) URL does not start
with `//`. -/
def netlocOf (url : String) : List Char :=
  match stripScheme (sanitizeUrl url.data) with
  | '/' :: '/' :: rest => rest.takeWhile (fun c => c ≠ '/' && c ≠ '?' && c ≠ '#')
  | _ => []

/-- The netloc condition on which CPython `urlsplit` raises
`ValueError("Invalid IPv6 URL")`. -/
def unbalancedBrackets (netloc : List Char) : Bool :=
  (netloc.contains '[' && !netloc.contains ']') ||
    (netloc.contains ']' && !netloc.contains '[')

/-- Hostname extraction from a netloc (CPython `SplitResult._hostinfo`):
take the part after the last `@`; if it holds `[`, the host is the span
between the first `[` and the following `]`, otherwise the span before the
first `:`. -/
def hostFromNetloc (netloc : List Char) : List Char :=
  let hostinfo := (netloc.reverse.takeWhile (fun c => c ≠ '@')).reverse
  if hostinfo.contains '[' then
    ((hostinfo.dropWhile (fun c => c ≠ '[')).drop 1).takeWhile (fun c => c ≠ ']')
  else hostinfo.takeWhile (fun c => c ≠ ':')

/-- Model of `urlparse(url).hostname or ""` as used at source lines 42-43:
either the lowercased hostname (empty when the URL has none) or the
`ValueError` CPython raises on a netloc with unbalanced square brackets. -/
def pyHostname (url : String) : Except PyErr String :=
  let netloc := netlocOf url
  if unbalancedBrackets netloc then .error .valueError
  else .ok (String.mk ((hostFromNetloc netloc).map Char.toLower))

/-! ## Text Matcher (source lines 28-47) -/

/-- A search result record; the source reads the keys `title`,
`description` and `url` with `dict.get` defaults, so each field is
optional. -/
structure SearchResult where
  title : Option String
  description : Option String
  url : Option String
deriving DecidableEq

/-- Stopword set of `result_matches_org` / `url_belongs_to_org`
(source lines 31 and 45). -/
def common_words : List String :=
  ["the", "of", "and", "company", "inc", "co", "-"]

/-- Tokenization shared by both matchers: lowercase, split on whitespace,
drop stopwords (source lines 30-32 and 44-46). -/
def org_tokens (org_name : String) : List String :=
  (pySplitWs (pyLower org_name)).filter (fun t => !common_words.contains t)

/-- Source lines 28-35: true when any organization token occurs in the
lowercased title or description of the result. -/
def result_matches_org (org_name : String) (result : SearchResult) : Bool :=
  let title := pyLower (result.title.getD "")
  let desc := pyLower (result.description.getD "")
  (org_tokens org_name).any (fun token => strContains title token || strContains desc token)

/-- Source lines 37-47: parse the URL hostname (which can raise
`ValueError`) and test whether any organization token occurs in it. -/
def url_belongs_to_org (org_name : String) (url : String) : Except PyErr Bool :=
  match pyHostname url with
  | .error e => .error e
  | .ok hostname =>
    .ok ((org_tokens org_name).any (fun token => strContains hostname token))

/-! ## Search Client (source lines 59-98)

The HTTP transport is abstracted as the outcome of each `requests.get`
call: either a transport-level exception or a response with a status code
and a body. A 200 body either fails to parse as JSON (any exception in
`response.json()` or the subsequent `.get` chain, caught at source lines
88-90) or yields `web.results` (`none` models a missing `web` or `results`
key, defaulted to `[]` at source line 86). The trace records how many
requests were sent and the sleeps performed, in order: `time.sleep(5)`
before the retry (line 80) and the unconditional `time.sleep(1)` in the
`finally` block (line 97). -/

/-- Outcome of parsing one response body. -/
inductive BodyJson
  | parseError
  | fields (web_results : Option (List SearchResult))
deriving DecidableEq

/-- Outcome of one `requests.get` call. -/
inductive HttpOutcome
  | fail
  | resp (status : Nat) (body : BodyJson)
deriving DecidableEq

/-- Source lines 83-93: a 200 response yields `web.results` (default `[]`);
any other status, or a body parse failure, yields `[]`. -/
def extract_results (status : Nat) (b : BodyJson) : List SearchResult :=
  if status = 200 then
    match b with
    | .parseError => []
    | .fields w => w.getD []
  else []

/-- Did this request outcome return HTTP 429? -/
def is429 : HttpOutcome → Bool
  | .fail => false
  | .resp s _ => s == 429

/-- Request count and sleep durations performed by one `search_organization`
call. -/
structure SearchTrace where
  requests : Nat
  sleeps : List Nat
deriving DecidableEq

/-- The response the result list is computed from: the retry response when
the first request returned 429, the first response otherwise. -/
def finalOutcome (first second : HttpOutcome) : HttpOutcome :=
  if is429 first then second else first

/-- A final response that actually yields `web.results`: status 200 with a
JSON-parseable body. -/
def isSuccessOutcome : HttpOutcome → Bool
  | .fail => false
  | .resp s b =>
    s == 200 && (match b with
      | .fields _ => true
      | .parseError => false)

/-- Source lines 75-98. `first` is the outcome of the initial request and
`second` the outcome of the retry request (consulted only on a 429 first
status). A transport exception on either request is caught at line 94 and
leaves `results = []`; the `finally` block always sleeps one unit. -/
def search_organization (first second : HttpOutcome) :
    List SearchResult × SearchTrace :=
  match first with
  | .fail => ([], ⟨1, [1]⟩)
  | .resp s b =>
    if s = 429 then
      match second with
      | .fail => ([], ⟨2, [5, 1]⟩)
      | .resp s2 b2 => (extract_results s2 b2, ⟨2, [5, 1]⟩)
    else (extract_results s b, ⟨1, [1]⟩)

/-! ## Goal Extractor (source lines 100-220)

The Anthropic call and the JSON extraction from Claude's reply (source
lines 138-185) are abstracted as the `ParsedResponse` they produce: the
whole block is wrapped in `try/except`, so every failure path (non-200
status, transport exception, missing JSON candidate, JSON decode error)
yields the empty dict `{}` — the all-`none` `ParsedResponse`. Only the keys
`has_goal`, `target_date`, `source_url`, `description` of `parsed_response`
are ever read or written afterwards, so the record models exactly those.
Values are arbitrary JSON-decoded Python values, modelled by `PyVal`. -/

/-- Python values that can appear in the parsed JSON response. -/
inductive PyVal
  | vNone
  | vBool (b : Bool)
  | vInt (n : Int)
  | vStr (s : String)
deriving DecidableEq

/-- Python truthiness, as used in `if not parsed_response.get(...)`. -/
def pyTruthy : PyVal → Bool
  | .vNone => false
  | .vBool b => b
  | .vInt n => n ≠ 0
  | .vStr s => s ≠ ""

/-- Python `dict.get(key)` with no default: an absent key reads as `None`. -/
def pvGet (o : Option PyVal) : PyVal :=
  o.getD .vNone

/-- The four keys of `parsed_response` that the source consults; `none`
models an absent key. -/
structure ParsedResponse where
  has_goal : Option PyVal
  target_date : Option PyVal
  source_url : Option PyVal
  description : Option PyVal
deriving DecidableEq

/-- The record built by `analyze_search_results` (source lines 110-116 and
214-220). -/
structure OrganizationGoal where
  organization : String
  has_goal : PyVal
  target_date : PyVal
  source_url : PyVal
  description : PyVal
deriving DecidableEq

/-- Source lines 188-193: scan for the first result with a truthy `url`
that passes the text match, then the hostname match (which can raise); on a
passing result return its url, on a hostname-match failure or guard failure
continue with the remaining results. -/
def fallback_source_url (org_name : String) :
    List SearchResult → Except PyErr (Option String)
  | [] => .ok none
  | r :: rest =>
    let url := r.url.getD ""
    if url != "" && result_matches_org org_name r then
      match url_belongs_to_org org_name url with
      | .error e => .error e
      | .ok true => .ok (some url)
      | .ok false => fallback_source_url org_name rest
    else fallback_source_url org_name rest

/-- Source lines 196-203: scan for the first result passing both matches
whose description holds a `\b(20\d{2})\b` year token; a passing result
without a year token does not stop the scan. -/
def fallback_target_date (org_name : String) :
    List SearchResult → Except PyErr (Option String)
  | [] => .ok none
  | r :: rest =>
    if result_matches_org org_name r then
      match url_belongs_to_org org_name (r.url.getD "") with
      | .error e => .error e
      | .ok true =>
        match findYear (r.description.getD "") with
        | some y => .ok (some y)
        | none => fallback_target_date org_name rest
      | .ok false => fallback_target_date org_name rest
    else fallback_target_date org_name rest

/-- Source lines 206-212: scan for the first result whose lowercased
description holds `decarbon` or `net zero` and which passes both matches;
return its description stripped and truncated to 250 characters. -/
def fallback_description (org_name : String) :
    List SearchResult → Except PyErr (Option String)
  | [] => .ok none
  | r :: rest =>
    let desc := r.description.getD ""
    if (strContains (pyLower desc) "decarbon" || strContains (pyLower desc) "net zero")
        && result_matches_org org_name r then
      match url_belongs_to_org org_name (r.url.getD "") with
      | .error e => .error e
      | .ok true => .ok (some (pyTake 250 (pyStrip desc)))
      | .ok false => fallback_description org_name rest
    else fallback_description org_name rest

/-- Source lines 188-193 as a dict update: run the source-url fallback only
when `parsed_response.get("source_url")` is falsy, writing the found url. -/
def apply_source_url_fallback (org_name : String) (results : List SearchResult)
    (p : ParsedResponse) : Except PyErr ParsedResponse :=
  if pyTruthy (pvGet p.source_url) then .ok p
  else
    match fallback_source_url org_name results with
    | .error e => .error e
    | .ok none => .ok p
    | .ok (some url) => .ok { p with source_url := some (.vStr url) }

/-- Source lines 196-203 as a dict update. -/
def apply_target_date_fallback (org_name : String) (results : List SearchResult)
    (p : ParsedResponse) : Except PyErr ParsedResponse :=
  if pyTruthy (pvGet p.target_date) then .ok p
  else
    match fallback_target_date org_name results with
    | .error e => .error e
    | .ok none => .ok p
    | .ok (some y) => .ok { p with target_date := some (.vStr y) }

/-- Source lines 206-212 as a dict update. -/
def apply_description_fallback (org_name : String) (results : List SearchResult)
    (p : ParsedResponse) : Except PyErr ParsedResponse :=
  if pyTruthy (pvGet p.description) then .ok p
  else
    match fallback_description org_name results with
    | .error e => .error e
    | .ok none => .ok p
    | .ok (some d) => .ok { p with description := some (.vStr d) }

/-- Source lines 214-220: the returned record, with the `dict.get`
defaults `"Not Found"`, `None`, `None`, `""`. -/
def finalize (org_name : String) (p : ParsedResponse) : OrganizationGoal :=
  { organization := org_name
    has_goal := p.has_goal.getD (.vStr "Not Found")
    target_date := pvGet p.target_date
    source_url := pvGet p.source_url
    description := p.description.getD (.vStr "") }

/-- Source lines 187-220: the three fallback stages in source order, then
the returned record. -/
def analyze_core (org_name : String) (results : List SearchResult)
    (parsed : ParsedResponse) : Except PyErr OrganizationGoal :=
  match apply_source_url_fallback org_name results parsed with
  | .error e => .error e
  | .ok p1 =>
    match apply_target_date_fallback org_name results p1 with
    | .error e => .error e
    | .ok p2 =>
      match apply_description_fallback org_name results p2 with
      | .error e => .error e
      | .ok p3 => .ok (finalize org_name p3)

/-- Source lines 100-220. `parsed` is the structured answer the inference
step produced (the all-`none` record on any inference failure); a record
returned with empty `results` never consults it, mirroring the
short-circuit at source lines 108-116 that skips the Anthropic call. -/
def analyze_search_results (org_name : String) (results : List SearchResult)
    (parsed : ParsedResponse) : Except PyErr OrganizationGoal :=
  match results with
  | [] =>
    .ok { organization := org_name, has_goal := .vStr "Not Found",
          target_date := .vNone, source_url := .vNone, description := .vStr "" }
  | _ :: _ => analyze_core org_name results parsed

/-! ## Pipeline Driver summary (source lines 262-270) -/

/-- Source line 263: `df['has_goal'].str.lower() == 'yes'` — true only for
string values whose lowercasing is `yes` (pandas `.str` maps non-strings to
NaN, which compares unequal). -/
def pyHasGoalIsYes (g : OrganizationGoal) : Bool :=
  match g.has_goal with
  | .vStr s => pyLower s == "yes"
  | _ => false

/-- Source line 263: the count of records whose `has_goal` lowercases to
`yes`. -/
def orgs_with_goals (records : List OrganizationGoal) : Nat :=
  (records.filter pyHasGoalIsYes).length

/-- Source line 270: `orgs_with_goals/total_orgs*100`. Python float
division raises `ZeroDivisionError` when `total_orgs` is `0`; the guard
here is the raise, not a recovery — no branch of the source checks for an
empty organization list. (With pandas the crash on an empty run is in fact
even earlier: `df['has_goal']` at line 263 raises `KeyError` because a
`DataFrame` built from an empty list has no columns.) -/
def summary_percentage (records : List OrganizationGoal) : Except PyErr Rat :=
  if records.length = 0 then .error .zeroDivisionError
  else .ok ((orgs_with_goals records : Rat) / (records.length : Rat) * 100)

/-! ## Specification-side characterizations of the fallback scans

These definitions follow the specification's wording ("the first result
such that ..."); the lemmas below prove that the source-side scanning
functions agree with them on every non-raising run. -/

/-- The hostname match as a plain boolean: true exactly when
`url_belongs_to_org` returns true (false when it raises, a case excluded
wherever this is used because the surrounding run returned normally). -/
def belongsB (org_name url : String) : Bool :=
  match url_belongs_to_org org_name url with
  | .ok b => b
  | .error _ => false

/-- Specification 4.3, `source_url` fallback: the first result with a
non-empty url that passes the text match and the hostname match, mapped to
its url. -/
def select_su (org_name : String) (results : List SearchResult) : Option String :=
  (results.find? (fun r =>
      (r.url.getD "" != "") && result_matches_org org_name r
        && belongsB org_name (r.url.getD ""))).map
    (fun r => r.url.getD "")

/-- Specification 4.3, `target_date` fallback: among results passing both
matcher checks, the first whose description holds a `20XX` year token,
mapped to the first such token of that description. -/
def select_td (org_name : String) (results : List SearchResult) : Option String :=
  (results.find? (fun r =>
      result_matches_org org_name r && belongsB org_name (r.url.getD "")
        && (findYear (r.description.getD "")).isSome)).bind
    (fun r => findYear (r.description.getD ""))

/-- Specification 4.3, `description` fallback: the first result whose
lowercased description holds `decarbon` or `net zero` and which passes both
matcher checks, mapped to its description stripped and truncated to 250
characters. -/
def select_desc (org_name : String) (results : List SearchResult) : Option String :=
  (results.find? (fun r =>
      (strContains (pyLower (r.description.getD "")) "decarbon"
          || strContains (pyLower (r.description.getD "")) "net zero")
        && result_matches_org org_name r
        && belongsB org_name (r.url.getD ""))).map
    (fun r => pyTake 250 (pyStrip (r.description.getD "")))

/-- True when the URL text holds no square bracket at all; such URLs never
trigger the bracket `ValueError` in any CPython version. -/
def bracketFree (url : String) : Bool :=
  !url.data.contains '[' && !url.data.contains ']'

/-- Does this matcher run raise an exception instead of returning a
boolean? -/
def throwsValueError (r : Except PyErr Bool) : Bool :=
  match r with
  | .error _ => true
  | .ok _ => false

/-! ## Lemmas: the source scans realize the specification selections -/

theorem fallback_source_url_ok (org_name : String) :
    ∀ (results : List SearchResult) (o : Option String),
      fallback_source_url org_name results = .ok o →
      o = select_su org_name results := by
  intro results
  induction results with
  | nil =>
    intro o h
    simp only [fallback_source_url, Except.ok.injEq] at h
    simp [select_su, ← h]
  | cons r rest ih =>
    intro o h
    simp only [fallback_source_url] at h
    simp only [select_su, List.find?_cons]
    by_cases hg : ((r.url.getD "" != "") && result_matches_org org_name r) = true
    · rw [if_pos hg] at h
      cases hb : url_belongs_to_org org_name (r.url.getD "") with
      | error e =>
        rw [hb] at h
        exact absurd h (by simp)
      | ok b =>
        rw [hb] at h
        have hbb : belongsB org_name (r.url.getD "") = b := by
          simp [belongsB, hb]
        cases b with
        | true =>
          simp only [Except.ok.injEq] at h
          simp only [hbb, hg, Bool.and_true]
          simp [← h]
        | false =>
          simp only [hbb, Bool.and_false]
          have hrest := ih o h
          simpa [select_su] using hrest
    · rw [if_neg hg] at h
      have hg2 : ((r.url.getD "" != "") && result_matches_org org_name r) = false :=
        Bool.of_not_eq_true hg
      simp only [hg2, Bool.false_and]
      have hrest := ih o h
      simpa [select_su] using hrest

theorem fallback_target_date_ok (org_name : String) :
    ∀ (results : List SearchResult) (o : Option String),
      fallback_target_date org_name results = .ok o →
      o = select_td org_name results := by
  intro results
  induction results with
  | nil =>
    intro o h
    simp only [fallback_target_date, Except.ok.injEq] at h
    simp [select_td, ← h]
  | cons r rest ih =>
    intro o h
    simp only [fallback_target_date] at h
    simp only [select_td, List.find?_cons]
    by_cases hm : result_matches_org org_name r = true
    · rw [if_pos hm] at h
      cases hb : url_belongs_to_org org_name (r.url.getD "") with
      | error e =>
        rw [hb] at h
        exact absurd h (by simp)
      | ok b =>
        rw [hb] at h
        have hbb : belongsB org_name (r.url.getD "") = b := by
          simp [belongsB, hb]
        cases b with
        | true =>
          cases hy : findYear (r.description.getD "") with
          | some y =>
            rw [hy] at h
            simp only [Except.ok.injEq] at h
            simp only [hm, hbb, hy, Bool.true_and, Bool.and_true, Option.isSome_some]
            simp [← h, hy]
          | none =>
            rw [hy] at h
            simp only [hm, hbb, hy, Bool.true_and, Bool.and_true, Option.isSome_none,
              Bool.and_false]
            have hrest := ih o h
            simpa [select_td] using hrest
        | false =>
          simp only [hbb, Bool.and_false, Bool.false_and]
          have hrest := ih o h
          simpa [select_td] using hrest
    · rw [if_neg hm] at h
      have hm2 : result_matches_org org_name r = false := Bool.of_not_eq_true hm
      simp only [hm2, Bool.false_and]
      have hrest := ih o h
      simpa [select_td] using hrest

theorem fallback_description_ok (org_name : String) :
    ∀ (results : List SearchResult) (o : Option String),
      fallback_description org_name results = .ok o →
      o = select_desc org_name results := by
  intro results
  induction results with
  | nil =>
    intro o h
    simp only [fallback_description, Except.ok.injEq] at h
    simp [select_desc, ← h]
  | cons r rest ih =>
    intro o h
    simp only [fallback_description] at h
    simp only [select_desc, List.find?_cons]
    by_cases hg : ((strContains (pyLower (r.description.getD "")) "decarbon"
        || strContains (pyLower (r.description.getD "")) "net zero")
        && result_matches_org org_name r) = true
    · rw [if_pos hg] at h
      cases hb : url_belongs_to_org org_name (r.url.getD "") with
      | error e =>
        rw [hb] at h
        exact absurd h (by simp)
      | ok b =>
        rw [hb] at h
        have hbb : belongsB org_name (r.url.getD "") = b := by
          simp [belongsB, hb]
        cases b with
        | true =>
          simp only [Except.ok.injEq] at h
          simp only [hbb, hg, Bool.and_true]
          simp [← h]
        | false =>
          simp only [hbb, Bool.and_false]
          have hrest := ih o h
          simpa [select_desc] using hrest
    · rw [if_neg hg] at h
      have hg2 : ((strContains (pyLower (r.description.getD "")) "decarbon"
          || strContains (pyLower (r.description.getD "")) "net zero")
          && result_matches_org org_name r) = false := Bool.of_not_eq_true hg
      simp only [hg2, Bool.false_and]
      have hrest := ih o h
      simpa [select_desc] using hrest

theorem apply_source_url_fallback_ok (org_name : String) (results : List SearchResult)
    (p p' : ParsedResponse)
    (h : apply_source_url_fallback org_name results p = .ok p') :
    p'.has_goal = p.has_goal ∧ p'.target_date = p.target_date ∧
    p'.description = p.description ∧
    p'.source_url = (if pyTruthy (pvGet p.source_url) then p.source_url
      else
        match select_su org_name results with
        | some u => some (.vStr u)
        | none => p.source_url) := by
  unfold apply_source_url_fallback at h
  by_cases ht : pyTruthy (pvGet p.source_url) = true
  · rw [if_pos ht] at h
    simp only [Except.ok.injEq] at h
    subst h
    simp [ht]
  · rw [if_neg ht] at h
    cases hf : fallback_source_url org_name results with
    | error e =>
      rw [hf] at h
      exact absurd h (by simp)
    | ok o =>
      rw [hf] at h
      have hsel := fallback_source_url_ok org_name results o hf
      cases o with
      | none =>
        simp only [Except.ok.injEq] at h
        subst h
        rw [← hsel]
        simp [ht]
      | some u =>
        simp only [Except.ok.injEq] at h
        subst h
        rw [← hsel]
        simp [ht]

theorem apply_target_date_fallback_ok (org_name : String) (results : List SearchResult)
    (p p' : ParsedResponse)
    (h : apply_target_date_fallback org_name results p = .ok p') :
    p'.has_goal = p.has_goal ∧ p'.source_url = p.source_url ∧
    p'.description = p.description ∧
    p'.target_date = (if pyTruthy (pvGet p.target_date) then p.target_date
      else
        match select_td org_name results with
        | some y => some (.vStr y)
        | none => p.target_date) := by
  unfold apply_target_date_fallback at h
  by_cases ht : pyTruthy (pvGet p.target_date) = true
  · rw [if_pos ht] at h
    simp only [Except.ok.injEq] at h
    subst h
    simp [ht]
  · rw [if_neg ht] at h
    cases hf : fallback_target_date org_name results with
    | error e =>
      rw [hf] at h
      exact absurd h (by simp)
    | ok o =>
      rw [hf] at h
      have hsel := fallback_target_date_ok org_name results o hf
      cases o with
      | none =>
        simp only [Except.ok.injEq] at h
        subst h
        rw [← hsel]
        simp [ht]
      | some y =>
        simp only [Except.ok.injEq] at h
        subst h
        rw [← hsel]
        simp [ht]

theorem apply_description_fallback_ok (org_name : String) (results : List SearchResult)
    (p p' : ParsedResponse)
    (h : apply_description_fallback org_name results p = .ok p') :
    p'.has_goal = p.has_goal ∧ p'.source_url = p.source_url ∧
    p'.target_date = p.target_date ∧
    p'.description = (if pyTruthy (pvGet p.description) then p.description
      else
        match select_desc org_name results with
        | some d => some (.vStr d)
        | none => p.description) := by
  unfold apply_description_fallback at h
  by_cases ht : pyTruthy (pvGet p.description) = true
  · rw [if_pos ht] at h
    simp only [Except.ok.injEq] at h
    subst h
    simp [ht]
  · rw [if_neg ht] at h
    cases hf : fallback_description org_name results with
    | error e =>
      rw [hf] at h
      exact absurd h (by simp)
    | ok o =>
      rw [hf] at h
      have hsel := fallback_description_ok org_name results o hf
      cases o with
      | none =>
        simp only [Except.ok.injEq] at h
        subst h
        rw [← hsel]
        simp [ht]
      | some d =>
        simp only [Except.ok.injEq] at h
        subst h
        rw [← hsel]
        simp [ht]

/-- Combined effect of the three fallback stages and the final record
construction, for any run of `analyze_core` that returns normally. -/
theorem analyze_core_ok (org_name : String) (results : List SearchResult)
    (parsed : ParsedResponse) (g : OrganizationGoal)
    (h : analyze_core org_name results parsed = .ok g) :
    g.organization = org_name ∧
    g.has_goal = parsed.has_goal.getD (.vStr "Not Found") ∧
    (pyTruthy (pvGet parsed.source_url) = false →
      g.source_url = (match select_su org_name results with
        | some u => .vStr u
        | none => pvGet parsed.source_url)) ∧
    (pyTruthy (pvGet parsed.target_date) = false →
      g.target_date = (match select_td org_name results with
        | some y => .vStr y
        | none => pvGet parsed.target_date)) ∧
    (pyTruthy (pvGet parsed.description) = false →
      g.description = (match select_desc org_name results with
        | some d => .vStr d
        | none => parsed.description.getD (.vStr ""))) := by
  unfold analyze_core at h
  cases h1 : apply_source_url_fallback org_name results parsed with
  | error e => rw [h1] at h; exact absurd h (by simp)
  | ok p1 =>
    rw [h1] at h
    dsimp only at h
    cases h2 : apply_target_date_fallback org_name results p1 with
    | error e => rw [h2] at h; exact absurd h (by simp)
    | ok p2 =>
      rw [h2] at h
      dsimp only at h
      cases h3 : apply_description_fallback org_name results p2 with
      | error e => rw [h3] at h; exact absurd h (by simp)
      | ok p3 =>
        rw [h3] at h
        simp only [Except.ok.injEq] at h
        subst h
        obtain ⟨e1h, e1t, e1d, e1s⟩ := apply_source_url_fallback_ok _ _ _ _ h1
        obtain ⟨e2h, e2s, e2d, e2t⟩ := apply_target_date_fallback_ok _ _ _ _ h2
        obtain ⟨e3h, e3s, e3t, e3d⟩ := apply_description_fallback_ok _ _ _ _ h3
        refine ⟨rfl, ?_, ?_, ?_, ?_⟩
        · show p3.has_goal.getD (.vStr "Not Found") = _
          rw [e3h, e2h, e1h]
        · intro hf
          show pvGet p3.source_url = _
          rw [e3s, e2s, e1s, if_neg (by simp [hf])]
          cases hsel : select_su org_name results <;> simp [pvGet]
        · intro hf
          show pvGet p3.target_date = _
          rw [e3t, e2t, e1t, if_neg (by simp [hf])]
          cases hsel : select_td org_name results <;> simp [pvGet]
        · intro hf
          show p3.description.getD (.vStr "") = _
          rw [e3d, e2d, e1d, if_neg (by simp [hf])]
          cases hsel : select_desc org_name results <;> simp [pvGet]

/-! ## Lemmas about tokenization and the URL model -/

theorem contains_eq_false_of_not_mem {c : Char} {l : List Char} (h : c ∉ l) :
    l.contains c = false := by
  cases hc : l.contains c
  · rfl
  · exact absurd (List.elem_iff.mp hc) h

theorem sanitizeUrl_subset (l : List Char) : sanitizeUrl l ⊆ l :=
  fun _ hc =>
    (List.dropWhile_sublist _).subset ((List.filter_sublist _).subset hc)

theorem stripScheme_subset (l : List Char) : stripScheme l ⊆ l := by
  unfold stripScheme
  split
  · exact fun _ h => h
  · split
    · exact fun _ h => h
    · exact fun _ h => h
    · split
      · exact fun c hc => List.mem_cons_of_mem _ (List.drop_subset _ _ hc)
      · exact fun _ h => h

theorem netlocOf_subset (url : String) : netlocOf url ⊆ url.data := by
  unfold netlocOf
  split
  · next rest heq =>
    intro c hc
    have h1 : c ∈ rest := (List.takeWhile_sublist _).subset hc
    have h2 : c ∈ stripScheme (sanitizeUrl url.data) := by
      rw [heq]
      exact List.mem_cons_of_mem _ (List.mem_cons_of_mem _ h1)
    exact sanitizeUrl_subset _ (stripScheme_subset _ h2)
  · intro c hc
    exact absurd hc (List.not_mem_nil c)

theorem splitWsGo_mem_ne_nil :
    ∀ (l acc : List Char) (t : String), t ∈ splitWsGo acc l → t.data ≠ [] := by
  intro l
  induction l with
  | nil =>
    intro acc t ht
    unfold splitWsGo at ht
    by_cases ha : acc = []
    · rw [if_pos ha] at ht
      exact absurd ht (List.not_mem_nil t)
    · rw [if_neg ha] at ht
      simp only [List.mem_singleton] at ht
      subst ht
      show acc.reverse ≠ []
      simpa using ha
  | cons c cs ih =>
    intro acc t ht
    unfold splitWsGo at ht
    by_cases hsp : pyIsSpace c = true
    · rw [if_pos hsp] at ht
      rcases List.mem_append.mp ht with h1 | h2
      · by_cases ha : acc = []
        · rw [if_pos ha] at h1
          exact absurd h1 (List.not_mem_nil t)
        · rw [if_neg ha] at h1
          simp only [List.mem_singleton] at h1
          subst h1
          show acc.reverse ≠ []
          simpa using ha
      · exact ih [] t h2
    · rw [if_neg hsp] at ht
      exact ih (c :: acc) t ht

theorem org_tokens_ne_nil (org_name t : String) (h : t ∈ org_tokens org_name) :
    t.data ≠ [] :=
  splitWsGo_mem_ne_nil _ [] t (List.mem_filter.mp h).1

theorem org_tokens_nil_of_stopwords (org_name : String)
    (h : ∀ t ∈ pySplitWs (pyLower org_name), t ∈ common_words) :
    org_tokens org_name = [] := by
  unfold org_tokens
  rw [List.filter_eq_nil_iff]
  intro t ht
  simp [h t ht]


theorem not_mem_of_contains_eq_false {c : Char} {l : List Char}
    (h : l.contains c = false) : c ∉ l := by
  intro hm
  have h2 : l.contains c = true := by
    show List.elem c l = true
    exact List.elem_iff.mpr hm
  rw [h2] at h
  exact absurd h (by simp)

theorem pyHostname_ok_of_bracketFree (url : String) (h : bracketFree url = true) :
    pyHostname url =
      .ok (String.mk ((hostFromNetloc (netlocOf url)).map Char.toLower)) := by
  unfold bracketFree at h
  rw [Bool.and_eq_true] at h
  obtain ⟨h1, h2⟩ := h
  have hop : '[' ∉ netlocOf url := fun hm =>
    (not_mem_of_contains_eq_false (by simpa using h1)) (netlocOf_subset url hm)
  have hcl : ']' ∉ netlocOf url := fun hm =>
    (not_mem_of_contains_eq_false (by simpa using h2)) (netlocOf_subset url hm)
  have hnb : unbalancedBrackets (netlocOf url) = false := by
    unfold unbalancedBrackets
    rw [contains_eq_false_of_not_mem hop, contains_eq_false_of_not_mem hcl]
    rfl
  simp [pyHostname, hnb]

theorem extract_results_eq_nil (s : Nat) (b : BodyJson)
    (h : isSuccessOutcome (.resp s b) = false) : extract_results s b = [] := by
  unfold isSuccessOutcome at h
  unfold extract_results
  by_cases hs : s = 200
  · rw [if_pos hs]
    subst hs
    cases b with
    | parseError => rfl
    | fields w => simp at h
  · rw [if_neg hs]

theorem pyTake_length_le (n : Nat) (s : String) : (pyTake n s).length ≤ n := by
  show (s.data.take n).length ≤ n
  rw [List.length_take]
  exact Nat.min_le_left _ _

/-! ## Claims -/

/-- Claim C1 (code bug): the claim says an empty organization list must not
divide by zero and must not crash. The source has no such guard: with zero
records the summary line computes `orgs_with_goals/total_orgs*100` with
`total_orgs = 0`, raising `ZeroDivisionError` (and with pandas the run dies
even earlier, on `df['has_goal']` over a column-less empty frame). This
theorem evaluates the embedded summary computation at the failing input. -/
theorem c1_empty_run_summary_raises_zero_division :
    summary_percentage [] = .error .zeroDivisionError := rfl

/-- Claim C2 (counterexample): `url_belongs_to_org` is not total — on the
malformed URL `http://[` CPython `urlparse` raises
`ValueError("Invalid IPv6 URL")` instead of yielding an empty hostname, so
the function does not return a boolean for every input string. -/
theorem c2_url_belongs_to_org_raises_counterexample :
    url_belongs_to_org "acme" "http://[" = .error .valueError := rfl

/-- Claim C2 (amended): `url_belongs_to_org` is a pure deterministic
function that returns a boolean without raising for every URL containing no
square bracket; a malformed URL of that kind is treated as having an empty
hostname, on which the function returns false. (URLs whose authority holds
an unmatched square bracket make `urlparse` raise `ValueError` instead.) -/
theorem c2_url_belongs_to_org_total_unless_bracketed (org_name url : String) :
    (bracketFree url = true →
      throwsValueError (url_belongs_to_org org_name url) = false) ∧
    (pyHostname url = .ok "" → url_belongs_to_org org_name url = .ok false) := by
  constructor
  · intro hb
    have hok := pyHostname_ok_of_bracketFree url hb
    unfold url_belongs_to_org
    rw [hok]
    rfl
  · intro hok
    unfold url_belongs_to_org
    rw [hok]
    have hany : (org_tokens org_name).any (fun token => strContains "" token) = false := by
      rw [List.any_eq_false]
      intro t ht hc
      have hd : t.data.isEmpty = true := hc
      rw [List.isEmpty_iff] at hd
      exact org_tokens_ne_nil org_name t ht hd
    show Except.ok ((org_tokens org_name).any fun token => strContains "" token) =
      Except.ok false
    rw [hany]

/-- Claim C2 witness: a bracket-free non-URL string does not raise and, as
its hostname is empty, matches no organization token. -/
theorem c2_url_belongs_to_org_total_unless_bracketed_witness :
    throwsValueError (url_belongs_to_org "acme" "notaurl") = false ∧
    url_belongs_to_org "acme" "notaurl" = .ok false :=
  ⟨(c2_url_belongs_to_org_total_unless_bracketed "acme" "notaurl").1 (by rfl),
   (c2_url_belongs_to_org_total_unless_bracketed "acme" "notaurl").2 (by rfl)⟩

/-- Claim C3: for every organization name and every search-result list, a
record returned by `analyze_search_results` carries the organization name
and a `has_goal` value, and `has_goal` equals the literal string
`Not Found` exactly when the key is still absent after the inference step
(the three fallback stages never write `has_goal`, which is why the
returned `has_goal` depends only on the parsed inference answer). -/
theorem c3_has_goal_always_present (org_name : String)
    (results : List SearchResult) (parsed : ParsedResponse)
    (g : OrganizationGoal)
    (h : analyze_search_results org_name results parsed = .ok g) :
    g.organization = org_name ∧
    g.has_goal = (if results.isEmpty then PyVal.vStr "Not Found"
      else parsed.has_goal.getD (PyVal.vStr "Not Found")) := by
  cases results with
  | nil =>
    simp only [analyze_search_results, Except.ok.injEq] at h
    subst h
    exact ⟨rfl, rfl⟩
  | cons r rest =>
    simp only [analyze_search_results] at h
    obtain ⟨h1, h2, _⟩ := analyze_core_ok _ _ _ _ h
    exact ⟨h1, by simpa using h2⟩

/-- Claim C3 witness: a concrete run whose parsed answer has no `has_goal`
key returns the literal `Not Found`. -/
theorem c3_has_goal_always_present_witness :
    (OrganizationGoal.mk "Acme Corp" (PyVal.vStr "Not Found")
        (PyVal.vStr "2035") (PyVal.vStr "https://acme.com/press")
        (PyVal.vStr "Acme targets net zero by 2035")).organization
      = "Acme Corp" ∧
    (OrganizationGoal.mk "Acme Corp" (PyVal.vStr "Not Found")
        (PyVal.vStr "2035") (PyVal.vStr "https://acme.com/press")
        (PyVal.vStr "Acme targets net zero by 2035")).has_goal
      = (if ([SearchResult.mk (some "Acme decarbonization")
              (some "Acme targets net zero by 2035")
              (some "https://acme.com/press")] : List SearchResult).isEmpty
         then PyVal.vStr "Not Found"
         else (ParsedResponse.mk none none none none).has_goal.getD
           (PyVal.vStr "Not Found")) :=
  c3_has_goal_always_present "Acme Corp"
    [SearchResult.mk (some "Acme decarbonization")
      (some "Acme targets net zero by 2035") (some "https://acme.com/press")]
    (ParsedResponse.mk none none none none)
    (OrganizationGoal.mk "Acme Corp" (PyVal.vStr "Not Found")
      (PyVal.vStr "2035") (PyVal.vStr "https://acme.com/press")
      (PyVal.vStr "Acme targets net zero by 2035"))
    (by rfl)

/-- Claim C4: with an empty result list `analyze_search_results` returns
exactly the record with `has_goal` the string `Not Found`, `target_date`
and `source_url` the Python `None`, and `description` the empty string;
the universally quantified `parsed` shows the outcome is independent of
the inference step, which the source never reaches on this path. -/
theorem c4_empty_results_short_circuit (org_name : String)
    (parsed : ParsedResponse) :
    analyze_search_results org_name [] parsed =
      .ok (OrganizationGoal.mk org_name (PyVal.vStr "Not Found") .vNone .vNone
        (PyVal.vStr "")) := rfl

/-- Claim C5: whenever the final response is not a status-200 response with
a JSON-parseable body — a non-200 final status, a transport-level failure
on either request, or a 200 body that fails to parse — the Search Client
returns the empty result list (and, in the embedding, always returns
rather than propagating an exception: the source absorbs every exception
at its `try/except`). -/
theorem c5_search_failure_returns_empty (first second : HttpOutcome)
    (h : isSuccessOutcome (finalOutcome first second) = false) :
    (search_organization first second).1 = [] := by
  cases first with
  | fail => rfl
  | resp s b =>
    by_cases hs : s = 429
    · have hfin : finalOutcome (.resp s b) second = second := by
        simp [finalOutcome, is429, hs]
      rw [hfin] at h
      unfold search_organization
      dsimp only
      rw [if_pos hs]
      cases second with
      | fail => rfl
      | resp s2 b2 => exact extract_results_eq_nil s2 b2 h
    · have hfin : finalOutcome (.resp s b) second = .resp s b := by
        simp [finalOutcome, is429, hs]
      rw [hfin] at h
      unfold search_organization
      dsimp only
      rw [if_neg hs]
      exact extract_results_eq_nil s b h

/-- Claim C5 witness: a 500 response with an unparseable body yields the
empty list. -/
theorem c5_search_failure_returns_empty_witness :
    (search_organization (.resp 500 .parseError) .fail).1 = [] :=
  c5_search_failure_returns_empty (.resp 500 .parseError) .fail (by rfl)

/-- Claim C6: the Search Client sends one request, and exactly when that
request returns HTTP 429 it sleeps 5 units and sends exactly one more (so
two requests and the sleep list `[5, 1]` on a 429 first response, one
request and `[1]` otherwise, the trailing 1 being the unconditional pacing
sleep); and in the scripted 429-then-200 scenario with one result in
`web.results`, exactly that result is returned. -/
theorem c6_retry_exactly_once_on_429 (first second : HttpOutcome)
    (b : BodyJson) (r : SearchResult) :
    (search_organization first second).2 =
      SearchTrace.mk (if is429 first then 2 else 1)
        (if is429 first then [5, 1] else [1]) ∧
    search_organization (.resp 429 b) (.resp 200 (.fields (some [r]))) =
      ([r], SearchTrace.mk 2 [5, 1]) := by
  constructor
  · cases first with
    | fail => rfl
    | resp s bb =>
      by_cases hs : s = 429
      · have h4 : is429 (HttpOutcome.resp s bb) = true := by simp [is429, hs]
        unfold search_organization
        dsimp only
        rw [if_pos hs, h4]
        cases second <;> rfl
      · have h4 : is429 (HttpOutcome.resp s bb) = false := by simp [is429, hs]
        unfold search_organization
        dsimp only
        rw [if_neg hs, h4]
        rfl
  · rfl

/-- Claim C7: when the parsed inference answer leaves `target_date`
absent or falsy, a normally returning run stores exactly the selection
described by the specification: the first result (in list order) that
passes both organization-match checks and whose description holds a
4-digit `20XX` word-bounded token, with the value being the leftmost such
token of that description (`select_td`); when no result qualifies, the
key keeps its original reading. -/
theorem c7_target_date_fallback_first_match (org_name : String)
    (results : List SearchResult) (parsed : ParsedResponse)
    (g : OrganizationGoal)
    (hne : results ≠ [])
    (hfalsy : pyTruthy (pvGet parsed.target_date) = false)
    (h : analyze_search_results org_name results parsed = .ok g) :
    g.target_date = (match select_td org_name results with
      | some y => PyVal.vStr y
      | none => pvGet parsed.target_date) := by
  cases results with
  | nil => exact absurd rfl hne
  | cons r rest =>
    simp only [analyze_search_results] at h
    exact (analyze_core_ok _ _ _ _ h).2.2.2.1 hfalsy

/-- Claim C7 witness: for Acme Corp with the single press result, the
fallback extracts the token 2035. -/
theorem c7_target_date_fallback_first_match_witness :
    (OrganizationGoal.mk "Acme Corp" (PyVal.vStr "Not Found")
        (PyVal.vStr "2035") (PyVal.vStr "https://acme.com/press")
        (PyVal.vStr "Acme targets net zero by 2035")).target_date
      = (match select_td "Acme Corp"
            [SearchResult.mk (some "Acme decarbonization")
              (some "Acme targets net zero by 2035")
              (some "https://acme.com/press")] with
         | some y => PyVal.vStr y
         | none => pvGet (ParsedResponse.mk none none none none).target_date) :=
  c7_target_date_fallback_first_match "Acme Corp"
    [SearchResult.mk (some "Acme decarbonization")
      (some "Acme targets net zero by 2035") (some "https://acme.com/press")]
    (ParsedResponse.mk none none none none)
    (OrganizationGoal.mk "Acme Corp" (PyVal.vStr "Not Found")
      (PyVal.vStr "2035") (PyVal.vStr "https://acme.com/press")
      (PyVal.vStr "Acme targets net zero by 2035"))
    (by simp) (by rfl) (by rfl)

/-- Claim C8: on a normally returning run, whenever the fallback stage
populates `source_url` it stores exactly the url of the first result with
a non-empty url passing both the text match and the hostname match
(`select_su`), and whenever it populates `description` it stores exactly
the stripped, 250-character-truncated description of the first result
whose description holds `decarbon` or `net zero` (case-insensitively) and
which passes both checks (`select_desc`); a value produced by
`select_desc` never exceeds 250 characters. -/
theorem c8_fallback_official_source_invariants (org_name : String)
    (results : List SearchResult) (parsed : ParsedResponse)
    (g : OrganizationGoal)
    (hne : results ≠ [])
    (h : analyze_search_results org_name results parsed = .ok g) :
    (pyTruthy (pvGet parsed.source_url) = false →
      g.source_url = (match select_su org_name results with
        | some u => PyVal.vStr u
        | none => pvGet parsed.source_url)) ∧
    (pyTruthy (pvGet parsed.description) = false →
      g.description = (match select_desc org_name results with
        | some d => PyVal.vStr d
        | none => parsed.description.getD (PyVal.vStr ""))) ∧
    (∀ d : String, select_desc org_name results = some d → d.length ≤ 250) := by
  refine ⟨?_, ?_, ?_⟩
  · cases results with
    | nil => exact absurd rfl hne
    | cons r rest =>
      simp only [analyze_search_results] at h
      exact (analyze_core_ok _ _ _ _ h).2.2.1
  · cases results with
    | nil => exact absurd rfl hne
    | cons r rest =>
      simp only [analyze_search_results] at h
      exact (analyze_core_ok _ _ _ _ h).2.2.2.2
  · intro d hd
    unfold select_desc at hd
    obtain ⟨rr, _, hfr⟩ := Option.map_eq_some'.mp hd
    rw [← hfr]
    exact pyTake_length_le 250 _

/-- Claim C8 witness: for Acme Corp with the single press result, the
fallback stores the press url and the truncated stripped description. -/
theorem c8_fallback_official_source_invariants_witness :
    (OrganizationGoal.mk "Acme Corp" (PyVal.vStr "Not Found")
        (PyVal.vStr "2035") (PyVal.vStr "https://acme.com/press")
        (PyVal.vStr "Acme targets net zero by 2035")).source_url
      = (match select_su "Acme Corp"
            [SearchResult.mk (some "Acme decarbonization")
              (some "Acme targets net zero by 2035")
              (some "https://acme.com/press")] with
         | some u => PyVal.vStr u
         | none => pvGet (ParsedResponse.mk none none none none).source_url) ∧
    (OrganizationGoal.mk "Acme Corp" (PyVal.vStr "Not Found")
        (PyVal.vStr "2035") (PyVal.vStr "https://acme.com/press")
        (PyVal.vStr "Acme targets net zero by 2035")).description
      = (match select_desc "Acme Corp"
            [SearchResult.mk (some "Acme decarbonization")
              (some "Acme targets net zero by 2035")
              (some "https://acme.com/press")] with
         | some d => PyVal.vStr d
         | none => (ParsedResponse.mk none none none none).description.getD
             (PyVal.vStr "")) :=
  ⟨(c8_fallback_official_source_invariants "Acme Corp"
      [SearchResult.mk (some "Acme decarbonization")
        (some "Acme targets net zero by 2035") (some "https://acme.com/press")]
      (ParsedResponse.mk none none none none)
      (OrganizationGoal.mk "Acme Corp" (PyVal.vStr "Not Found")
        (PyVal.vStr "2035") (PyVal.vStr "https://acme.com/press")
        (PyVal.vStr "Acme targets net zero by 2035"))
      (by simp) (by rfl)).1 (by rfl),
   (c8_fallback_official_source_invariants "Acme Corp"
      [SearchResult.mk (some "Acme decarbonization")
        (some "Acme targets net zero by 2035") (some "https://acme.com/press")]
      (ParsedResponse.mk none none none none)
      (OrganizationGoal.mk "Acme Corp" (PyVal.vStr "Not Found")
        (PyVal.vStr "2035") (PyVal.vStr "https://acme.com/press")
        (PyVal.vStr "Acme targets net zero by 2035"))
      (by simp) (by rfl)).2.1 (by rfl)⟩

/-- Claim C9 (counterexample): `the` consists of a single stopword token,
yet `url_belongs_to_org "the"` applied to the malformed URL `http://[`
raises `ValueError` rather than returning false, so the claim that it
returns false for every URL fails. -/
theorem c9_stopword_org_counterexample :
    (pySplitWs (pyLower "the")).all (fun t => common_words.contains t) = true ∧
    url_belongs_to_org "the" "http://[" = .error .valueError :=
  ⟨rfl, rfl⟩

/-- Claim C9 (amended): for an organization name all of whose whitespace
tokens are stopwords, `result_matches_org` returns false for every result,
and `url_belongs_to_org` returns false for every URL on which hostname
parsing succeeds (a vacuous match over the empty token list is not a
match); on bracket-malformed URLs the hostname parse raises instead of
returning. -/
theorem c9_stopword_org_never_matches (org_name : String)
    (hstop : ∀ t ∈ pySplitWs (pyLower org_name), t ∈ common_words) :
    (∀ r : SearchResult, result_matches_org org_name r = false) ∧
    (∀ (url : String) (b : Bool),
      url_belongs_to_org org_name url = .ok b → b = false) := by
  have hnil := org_tokens_nil_of_stopwords org_name hstop
  constructor
  · intro r
    simp [result_matches_org, hnil]
  · intro url b h
    unfold url_belongs_to_org at h
    cases hh : pyHostname url with
    | error e =>
      rw [hh] at h
      exact absurd h (by simp)
    | ok hn =>
      rw [hh] at h
      simp only [Except.ok.injEq] at h
      rw [← h, hnil]
      rfl

/-- Claim C9 witness: a stopword-only organization name matches neither a
result mentioning net zero nor matching text. -/
theorem c9_stopword_org_never_matches_witness :
    result_matches_org "the of" (SearchResult.mk (some "Annual report")
      (some "net zero in sight") (some "https://example.com/a")) = false :=
  (c9_stopword_org_never_matches "the of" (by decide)).1
    (SearchResult.mk (some "Annual report") (some "net zero in sight")
      (some "https://example.com/a"))

/-- Claim C10: on a successful search (final status 200 with parseable
body), the Search Client returns the provider list `web.results` verbatim:
no truncation to the requested count of 5 and no per-element validation,
so longer lists and records with missing title, description or url fields
pass through unchanged. -/
theorem c10_success_passthrough_verbatim (first second : HttpOutcome)
    (rs : List SearchResult)
    (h : finalOutcome first second = .resp 200 (.fields (some rs))) :
    (search_organization first second).1 = rs := by
  cases first with
  | fail => simp [finalOutcome, is429] at h
  | resp s b =>
    by_cases hs : s = 429
    · have hfin : finalOutcome (.resp s b) second = second := by
        simp [finalOutcome, is429, hs]
      rw [hfin] at h
      subst h
      unfold search_organization
      dsimp only
      rw [if_pos hs]
      rfl
    · have hfin : finalOutcome (.resp s b) second = .resp s b := by
        simp [finalOutcome, is429, hs]
      rw [hfin] at h
      injection h with h1 h2
      subst h1
      subst h2
      unfold search_organization
      dsimp only
      rw [if_neg hs]
      rfl

/-- Claim C10 witness: six results, several with absent fields, are passed
through unchanged. -/
theorem c10_success_passthrough_verbatim_witness :
    (search_organization
      (.resp 200 (.fields (some
        [SearchResult.mk (some "r1") (some "d1") (some "https://a.com/1"),
         SearchResult.mk none (some "d2") (some "https://a.com/2"),
         SearchResult.mk (some "r3") none (some "https://a.com/3"),
         SearchResult.mk (some "r4") (some "d4") none,
         SearchResult.mk none none none,
         SearchResult.mk (some "r6") (some "d6") (some "https://a.com/6")])))
      .fail).1 =
      [SearchResult.mk (some "r1") (some "d1") (some "https://a.com/1"),
       SearchResult.mk none (some "d2") (some "https://a.com/2"),
       SearchResult.mk (some "r3") none (some "https://a.com/3"),
       SearchResult.mk (some "r4") (some "d4") none,
       SearchResult.mk none none none,
       SearchResult.mk (some "r6") (some "d6") (some "https://a.com/6")] :=
  c10_success_passthrough_verbatim _ .fail _ (by rfl)
